import Mathlib

set_option maxRecDepth 100000

/-!
Shallow embedding of the VITS TTS plugin (src/plugin.py): the API client
(VitsAPIClient.call_vits_api), the keyword action adapter
(VitsTTSAction.execute), the command adapter (VitsTTSCommand.execute) and the
command pattern. Effects are made explicit: the remote API and the transport
are one parameter (ApiBehavior), the random uuid suffix and the transient
directory are parameters, and the issued requests, written files and host
sends are returned alongside the result.
-/

/-- Resolved plugin configuration: the values the adapters obtain through
get_config, whose fallback defaults mirror VitsTTSPlugin.config_schema. -/
structure PluginConfig where
  api_url : String
  default_voice_id : String
  language : String
  timeout : Nat
  max_text_length : Nat
  retry_count : Nat
  audio_format : String
deriving DecidableEq

/-- The schema defaults from VitsTTSPlugin.config_schema (they coincide with
the get_config fallbacks used inside both execute methods). -/
def defaultConfig : PluginConfig :=
  { api_url := "https://artrajz-vits-simple-api.hf.space/voice/vits"
    default_voice_id := "0"
    language := "zh"
    timeout := 30
    max_text_length := 500
    retry_count := 2
    audio_format := "wav" }

/-- UTF-8 encoding of one code point, as byte values (what Python's
str.encode produces per character before percent-escaping). -/
def utf8Bytes (c : Char) : List Nat :=
  let n := c.toNat
  if n < 128 then [n]
  else if n < 2048 then [192 + n / 64, 128 + n % 64]
  else if n < 65536 then [224 + n / 4096, 128 + n / 64 % 64, 128 + n % 64]
  else [240 + n / 262144, 128 + n / 4096 % 64, 128 + n / 64 % 64, 128 + n % 64]

/-- Upper-case hexadecimal digit, as used by urllib percent escapes. -/
def hexUpper (n : Nat) : Char :=
  if n < 10 then Char.ofNat (48 + n) else Char.ofNat (55 + n)

/-- urllib.parse.quote on one byte: ASCII letters, digits, the marks
underscore, dot, hyphen, tilde, and the default-safe slash pass through,
every other byte becomes a percent escape. -/
def quoteByte (b : Nat) : String :=
  if (65 ≤ b ∧ b ≤ 90) ∨ (97 ≤ b ∧ b ≤ 122) ∨ (48 ≤ b ∧ b ≤ 57)
      ∨ b = 95 ∨ b = 46 ∨ b = 45 ∨ b = 126 ∨ b = 47 then
    String.singleton (Char.ofNat b)
  else
    "%" ++ String.singleton (hexUpper (b / 16)) ++ String.singleton (hexUpper (b % 16))

/-- urllib.parse.quote with the default safe set, applied to the text before
it is spliced into the request URL (plugin.py line 45). -/
def pyQuote (s : String) : String :=
  String.join ((s.data.foldr (fun c acc => utf8Bytes c ++ acc) []).map quoteByte)

/-- One invocation's view of the remote API and of the transport layer:
either a response with a status and a byte body, or one of the three
exceptional outcomes the client catches (asyncio.TimeoutError,
aiohttp.ClientError, any other exception). -/
inductive ApiBehavior where
  | respond (status : Nat) (body : List Nat)
  | timeout
  | clientError (msg : String)
  | exception (msg : String)
deriving DecidableEq

/-- What one call of VitsAPIClient.call_vits_api produces: the returned
value (an audio path on success, None on any failure), the GET requests
issued, and the files written with their contents. -/
structure ClientOutcome where
  result : Option String
  requests : List String
  files : List (String × List Nat)
deriving DecidableEq

/-- The GET URL built at plugin.py line 46:
api_url?text=encoded&id=voice_id&lang=language (only the text is quoted). -/
def requestUrl (api_url text voice_id language : String) : String :=
  api_url ++ "?text=" ++ pyQuote text ++ "&id=" ++ voice_id ++ "&lang=" ++ language

/-- The file name built at plugin.py line 71, with the uuid hex fragment a
parameter. -/
def audioFilename (sfx : String) : String :=
  "vits_tts_" ++ sfx ++ ".wav"

/-- os.path.join(tempfile.gettempdir(), filename) for a transient directory
without a trailing separator (plugin.py lines 72-73). -/
def audioPath (tmpDir sfx : String) : String :=
  tmpDir ++ "/" ++ audioFilename sfx

/-- VitsAPIClient.call_vits_api (plugin.py lines 41-94). A 200 response with
a body of at least 100 bytes is written to the transient file and its path
returned; an undersized body, any other status, and the three caught
exception classes all return None with no file written. -/
def call_vits_api (api_url text voice_id language : String) (timeout : Nat)
    (env : ApiBehavior) (sfx tmpDir : String) : ClientOutcome :=
  let url := requestUrl api_url text voice_id language
  match env with
  | ApiBehavior.respond status body =>
      if status = 200 then
        if body.length < 100 then
          { result := none, requests := [url], files := [] }
        else
          { result := some (audioPath tmpDir sfx), requests := [url],
            files := [(audioPath tmpDir sfx, body)] }
      else
        { result := none, requests := [url], files := [] }
  | ApiBehavior.timeout => { result := none, requests := [url], files := [] }
  | ApiBehavior.clientError _ => { result := none, requests := [url], files := [] }
  | ApiBehavior.exception _ => { result := none, requests := [url], files := [] }

/-- Python re \s (and the whitespace set of str.strip) on the characters
the plugin can receive. -/
def isPySpace (c : Char) : Bool :=
  c = ' ' || c = '\t' || c = '\n' || c = '\r' || c = '\x0b' || c = '\x0c'

/-- Python re \d restricted to ASCII digits. -/
def isPyDigit (c : Char) : Bool :=
  '0' ≤ c && c ≤ '9'

/-- Python str.strip(): remove leading and trailing whitespace. -/
def pyStrip (s : String) : String :=
  String.mk (((s.data.dropWhile isPySpace).reverse.dropWhile isPySpace).reverse)

/-- Python slicing text[:n] by code points. -/
def pyTake (s : String) (n : Nat) : String :=
  String.mk (s.data.take n)

/-- A message handed to one of the host's send primitives: a plain text
reply (send_text) or a typed voice message carrying a local file path,
tagged with which primitive delivered it (send_custom for the action,
send_type for the command) and with its message_type argument. -/
inductive Sent where
  | text (msg : String)
  | voice (primitive : String) (message_type : String) (content : String)
deriving DecidableEq

/-- What one adapter execution produces: the returned (bool, str) outcome
pair, the host sends, the GET requests issued and the files written. -/
structure ExecResult where
  ok : Bool
  msg : String
  sent : List Sent
  requests : List String
  files : List (String × List Nat)
deriving DecidableEq

/-- The action_data parameter bag the host hands to VitsTTSAction.execute
(absent keys are modelled as none; .get falls back to ""). -/
structure ActionData where
  text : Option String
  voice_id : Option String
deriving DecidableEq

/-- The regex capture groups the host hands to VitsTTSCommand.execute
(a group that did not participate is none; .get falls back to ""). -/
structure MatchedGroups where
  text : Option String
  voice_id : Option String
deriving DecidableEq

/-- VitsTTSAction.execute (plugin.py lines 125-169). The whole body sits in
try/except; exc models an unexpected exception raised inside the try body
before any other step, caught by the outermost handler. -/
def VitsTTSAction_execute (cfg : PluginConfig) (data : ActionData)
    (env : ApiBehavior) (sfx tmpDir : String) (exc : Option String) : ExecResult :=
  match exc with
  | some e =>
      { ok := false, msg := "语音合成出错: " ++ e,
        sent := [Sent.text ("❌ 语音合成出错: " ++ e)], requests := [], files := [] }
  | none =>
      let text := pyStrip (data.text.getD "")
      let voice_id0 := data.voice_id.getD ""
      if text = "" then
        { ok := false, msg := "缺少文本内容",
          sent := [Sent.text "❌ 请提供要转换为语音的文本内容"], requests := [], files := [] }
      else if text.length > cfg.max_text_length then
        { ok := false,
          msg := "文本长度超过限制: " ++ toString text.length ++ "/"
            ++ toString cfg.max_text_length,
          sent := [Sent.text ("❌ 文本长度超过限制（最大"
            ++ toString cfg.max_text_length ++ "字符）")],
          requests := [], files := [] }
      else
        let voice_id := if voice_id0 = "" then cfg.default_voice_id else voice_id0
        let c := call_vits_api cfg.api_url text voice_id cfg.language cfg.timeout env sfx tmpDir
        match c.result with
        | some p =>
            { ok := true, msg := "成功生成并发送语音：" ++ pyTake text 30 ++ "...",
              sent := [Sent.voice "send_custom" "voiceurl" p],
              requests := c.requests, files := c.files }
        | none =>
            { ok := false, msg := "语音合成失败",
              sent := [Sent.text "❌ 语音合成失败，请检查网络连接或稍后重试"],
              requests := c.requests, files := c.files }

/-- VitsTTSCommand.execute (plugin.py lines 188-231); same structure as the
action, with the parameters taken from the pattern match, the empty-input
prompt worded 请输入 instead of 请提供, and delivery via send_type. -/
def VitsTTSCommand_execute (cfg : PluginConfig) (mg : MatchedGroups)
    (env : ApiBehavior) (sfx tmpDir : String) (exc : Option String) : ExecResult :=
  match exc with
  | some e =>
      { ok := false, msg := "语音合成出错: " ++ e,
        sent := [Sent.text ("❌ 语音合成出错: " ++ e)], requests := [], files := [] }
  | none =>
      let text := pyStrip (mg.text.getD "")
      let voice_id0 := mg.voice_id.getD ""
      if text = "" then
        { ok := false, msg := "缺少文本内容",
          sent := [Sent.text "❌ 请输入要转换为语音的文本内容"], requests := [], files := [] }
      else if text.length > cfg.max_text_length then
        { ok := false,
          msg := "文本长度超过限制: " ++ toString text.length ++ "/"
            ++ toString cfg.max_text_length,
          sent := [Sent.text ("❌ 文本长度超过限制（最大"
            ++ toString cfg.max_text_length ++ "字符）")],
          requests := [], files := [] }
      else
        let voice_id := if voice_id0 = "" then cfg.default_voice_id else voice_id0
        let c := call_vits_api cfg.api_url text voice_id cfg.language cfg.timeout env sfx tmpDir
        match c.result with
        | some p =>
            { ok := true, msg := "成功生成并发送语音：" ++ pyTake text 30 ++ "...",
              sent := [Sent.voice "send_type" "voiceurl" p],
              requests := c.requests, files := c.files }
        | none =>
            { ok := false, msg := "语音合成失败",
              sent := [Sent.text "❌ 语音合成失败，请检查网络连接或稍后重试"],
              requests := c.requests, files := c.files }

/-- Python $: end of input, or just before one final newline. -/
def atLineEnd (rest : List Char) : Bool :=
  rest.isEmpty || rest = ['\n']

/-- Attempt of the tail after the text capture: first the optional group
(whitespace then a digit run then $), else the empty alternative ($ right
away); returns the captured digit run when the group participates. -/
def matchTail (rest : List Char) : Option (Option (List Char)) :=
  let w := rest.takeWhile isPySpace
  let r := rest.dropWhile isPySpace
  let d := r.takeWhile isPyDigit
  let r2 := r.dropWhile isPyDigit
  if !w.isEmpty && !d.isEmpty && atLineEnd r2 then some (some d)
  else if atLineEnd rest then some none
  else none

/-- Lazy text capture of the command pattern: extend the capture one
character at a time (never across a newline, since . excludes it) and stop
at the first point where the tail matches. -/
def lazyText : List Char → List Char → Option (List Char × Option (List Char))
  | [], _ => none
  | c :: rest, acc =>
      if c = '\n' then none
      else
        match matchTail rest with
        | some vid => some (acc ++ [c], vid)
        | none => lazyText rest (acc ++ [c])

/-- Backtracking of the greedy leading whitespace run: try the longest run
first, shorten it while the rest of the pattern fails. -/
def wsSplit (rest : List Char) : Nat → Option (List Char × Option (List Char))
  | 0 => none
  | k + 1 =>
      match lazyText (rest.drop (k + 1)) [] with
      | some r => some r
      | none => wsSplit rest k

/-- Matching semantics of VitsTTSCommand.command_pattern (plugin.py line
179), the anchored regex /vits, whitespace, a lazy text capture, and an
optional whitespace-plus-digits voice id: returns the two captures. -/
def commandPatternMatch (s : String) : Option (String × Option String) :=
  let cs := s.data
  if cs.take 5 = "/vits".data then
    let rest := cs.drop 5
    match wsSplit rest (rest.takeWhile isPySpace).length with
    | some (t, vid) => some (String.mk t, vid.map String.mk)
    | none => none
  else none

/-- Greedy text capture: try the longest capture first. -/
def greedyText (rest : List Char) : Nat → Option (List Char × Option (List Char))
  | 0 => none
  | k + 1 =>
      if (rest.take (k + 1)).all (fun c => c ≠ '\n') then
        match matchTail (rest.drop (k + 1)) with
        | some vid => some (rest.take (k + 1), vid)
        | none => greedyText rest k
      else greedyText rest k

def wsSplitGreedy (rest : List Char) : Nat → Option (List Char × Option (List Char))
  | 0 => none
  | k + 1 =>
      match greedyText (rest.drop (k + 1)) (rest.length - (k + 1)) with
      | some r => some r
      | none => wsSplitGreedy rest k

/-- Modelled from the spec: the spec describes the command surface as
"text is the first greedy capture" with "an optional trailing integer";
this is that reading of the pattern, identical to commandPatternMatch
except that the text capture is greedy instead of lazy. -/
def commandPatternMatchGreedySpec (s : String) : Option (String × Option String) :=
  let cs := s.data
  if cs.take 5 = "/vits".data then
    let rest := cs.drop 5
    match wsSplitGreedy rest (rest.takeWhile isPySpace).length with
    | some (t, vid) => some (String.mk t, vid.map String.mk)
    | none => none
  else none

/-- Host sends with the delivering primitive name erased: what the end user
observes (message kind, message_type for voice, payload). -/
def sentsNorm (l : List Sent) : List (Bool × String × String) :=
  l.map (fun s =>
    match s with
    | Sent.text m => (false, "", m)
    | Sent.voice _ mt p => (true, mt, p))

/-- Whether pat occurs at the front of s. -/
def segAt : List Char → List Char → Bool
  | [], _ => true
  | _ :: _, [] => false
  | a :: asx, b :: bs => a = b && segAt asx bs

/-- Whether pat occurs contiguously anywhere inside s (substring test). -/
def hasSeg (pat : List Char) : List Char → Bool
  | [] => pat.isEmpty
  | c :: rest => segAt pat (c :: rest) || hasSeg pat rest

/-- Classifies the API behaviors the spec's error taxonomy collapses to
Failure: non-200 status, undersized body, timeout, transport error, or any
other exception. -/
def apiFails (env : ApiBehavior) : Bool :=
  match env with
  | ApiBehavior.respond status body => status != 200 || body.length < 100
  | _ => true

theorem call_fail (u t v l : String) (tmo : Nat) (env : ApiBehavior) (sfx tmp : String)
    (h : apiFails env = true) :
    call_vits_api u t v l tmo env sfx tmp =
      { result := none, requests := [requestUrl u t v l], files := [] } := by
  cases env with
  | respond status body =>
      by_cases hs : status = 200
      · subst hs
        simp only [apiFails, bne_self_eq_false, Bool.false_or, decide_eq_true_eq] at h
        simp [call_vits_api, h]
      · simp [call_vits_api, hs]
  | timeout => rfl
  | clientError m => rfl
  | exception m => rfl

theorem call_success (u t v l : String) (tmo : Nat) (body : List Nat) (sfx tmp : String)
    (hb : 100 ≤ body.length) :
    call_vits_api u t v l tmo (ApiBehavior.respond 200 body) sfx tmp =
      { result := some (audioPath tmp sfx), requests := [requestUrl u t v l],
        files := [(audioPath tmp sfx, body)] } := by
  simp [call_vits_api, Nat.not_lt.mpr hb]

theorem call_requests (u t v l : String) (tmo : Nat) (env : ApiBehavior) (sfx tmp : String) :
    (call_vits_api u t v l tmo env sfx tmp).requests = [requestUrl u t v l] := by
  cases env with
  | respond status body =>
      by_cases hs : status = 200 <;> by_cases hb : body.length < 100 <;>
        simp [call_vits_api, hs, hb]
  | timeout => rfl
  | clientError m => rfl
  | exception m => rfl

/-- C3: on a 200 response whose body is under 100 bytes the client returns
None with no file written, and each adapter reports a failure outcome whose
only host send is the plain-text failure notice (no voice message). -/
theorem C3_thm (cfg : PluginConfig) (t v sfx tmp : String) (body : List Nat)
    (h1 : (pyStrip t) ≠ "") (h2 : (pyStrip t).length ≤ cfg.max_text_length)
    (hb : body.length < 100) :
    (call_vits_api cfg.api_url (pyStrip t) (if v = "" then cfg.default_voice_id else v)
        cfg.language cfg.timeout (ApiBehavior.respond 200 body) sfx tmp).result = none
    ∧ (call_vits_api cfg.api_url (pyStrip t) (if v = "" then cfg.default_voice_id else v)
        cfg.language cfg.timeout (ApiBehavior.respond 200 body) sfx tmp).files = []
    ∧ (VitsTTSAction_execute cfg ⟨some t, some v⟩ (ApiBehavior.respond 200 body) sfx tmp none).ok
        = false
    ∧ (VitsTTSAction_execute cfg ⟨some t, some v⟩ (ApiBehavior.respond 200 body) sfx tmp none).sent
        = [Sent.text "❌ 语音合成失败，请检查网络连接或稍后重试"]
    ∧ (VitsTTSCommand_execute cfg ⟨some t, some v⟩ (ApiBehavior.respond 200 body) sfx tmp none).ok
        = false
    ∧ (VitsTTSCommand_execute cfg ⟨some t, some v⟩ (ApiBehavior.respond 200 body) sfx tmp none).sent
        = [Sent.text "❌ 语音合成失败，请检查网络连接或稍后重试"] := by
  have hf := call_fail cfg.api_url (pyStrip t) (if v = "" then cfg.default_voice_id else v)
    cfg.language cfg.timeout (ApiBehavior.respond 200 body) sfx tmp
    (by simp [apiFails, hb])
  refine ⟨?_, ?_, ?_, ?_, ?_, ?_⟩ <;>
    simp [VitsTTSAction_execute, VitsTTSCommand_execute, h1, Nat.not_lt.mpr h2, hf]

/-- C3 witness: a 200 response with a 50-byte body at concrete inputs. -/
theorem C3_witness :
    (pyStrip "hi" ≠ "" ∧ (pyStrip "hi").length ≤ defaultConfig.max_text_length
      ∧ (List.replicate 50 1).length < 100)
    ∧ (call_vits_api defaultConfig.api_url (pyStrip "hi")
        (if "" = "" then defaultConfig.default_voice_id else "")
        defaultConfig.language defaultConfig.timeout
        (ApiBehavior.respond 200 (List.replicate 50 1)) "ab" "/tmp").result = none
    ∧ (call_vits_api defaultConfig.api_url (pyStrip "hi")
        (if "" = "" then defaultConfig.default_voice_id else "")
        defaultConfig.language defaultConfig.timeout
        (ApiBehavior.respond 200 (List.replicate 50 1)) "ab" "/tmp").files = []
    ∧ (VitsTTSAction_execute defaultConfig ⟨some "hi", some ""⟩
        (ApiBehavior.respond 200 (List.replicate 50 1)) "ab" "/tmp" none).ok = false
    ∧ (VitsTTSAction_execute defaultConfig ⟨some "hi", some ""⟩
        (ApiBehavior.respond 200 (List.replicate 50 1)) "ab" "/tmp" none).sent
        = [Sent.text "❌ 语音合成失败，请检查网络连接或稍后重试"]
    ∧ (VitsTTSCommand_execute defaultConfig ⟨some "hi", some ""⟩
        (ApiBehavior.respond 200 (List.replicate 50 1)) "ab" "/tmp" none).ok = false
    ∧ (VitsTTSCommand_execute defaultConfig ⟨some "hi", some ""⟩
        (ApiBehavior.respond 200 (List.replicate 50 1)) "ab" "/tmp" none).sent
        = [Sent.text "❌ 语音合成失败，请检查网络连接或稍后重试"] :=
  ⟨⟨by decide, by decide, by decide⟩,
    C3_thm defaultConfig "hi" "" "ab" "/tmp" (List.replicate 50 1)
      (by decide) (by decide) (by decide)⟩

/-- C4: on every failing API behavior (non-200 status, undersized body,
timeout, transport error, unexpected exception) the client returns None and
writes no file, so the caller sees only failure and never partial data. -/
theorem C4_thm (u t v l : String) (tmo : Nat) (env : ApiBehavior) (sfx tmp : String)
    (h : apiFails env = true) :
    (call_vits_api u t v l tmo env sfx tmp).result = none
    ∧ (call_vits_api u t v l tmo env sfx tmp).files = [] := by
  rw [call_fail u t v l tmo env sfx tmp h]
  exact ⟨rfl, rfl⟩

/-- C4 witness: the timeout behavior at concrete inputs. -/
theorem C4_witness :
    apiFails ApiBehavior.timeout = true
    ∧ (call_vits_api "u" "t" "0" "zh" 30 ApiBehavior.timeout "ab" "/tmp").result = none
    ∧ (call_vits_api "u" "t" "0" "zh" 30 ApiBehavior.timeout "ab" "/tmp").files = [] :=
  ⟨by decide, C4_thm "u" "t" "0" "zh" 30 ApiBehavior.timeout "ab" "/tmp" (by decide)⟩

theorem segAt_append (p r : List Char) : segAt p (p ++ r) = true := by
  induction p with
  | nil => rfl
  | cons c cs ih => simp [segAt, ih]

theorem hasSeg_of_segAt (p s : List Char) (h : segAt p s = true) : hasSeg p s = true := by
  cases s with
  | nil =>
      cases p with
      | nil => rfl
      | cons c cs => exact absurd h (by simp [segAt])
  | cons c r => simp [hasSeg, h]

theorem hasSeg_mid (p x y : List Char) : hasSeg p (x ++ (p ++ y)) = true := by
  induction x with
  | nil => exact hasSeg_of_segAt p (p ++ y) (segAt_append p y)
  | cons c cs ih => simp [hasSeg, ih]

theorem str_append_cancel_left {a b c : String} (h : a ++ b = a ++ c) : b = c := by
  have hd := congrArg String.data h
  simp only [String.data_append] at hd
  exact String.ext (List.append_cancel_left hd)

theorem str_append_cancel_right {a b c : String} (h : a ++ c = b ++ c) : a = b := by
  have hd := congrArg String.data h
  simp only [String.data_append] at hd
  exact String.ext (List.append_cancel_right hd)

theorem audioPath_inj (tmp : String) : Function.Injective (audioPath tmp) := by
  intro a b h
  unfold audioPath audioFilename at h
  have h1 : "vits_tts_" ++ a ++ ".wav" = "vits_tts_" ++ b ++ ".wav" :=
    str_append_cancel_left h
  exact str_append_cancel_left (str_append_cancel_right h1)

/-- C1 counterexample: two successful calls whose response bodies have
different sizes return the very same value, so the client's return value
carries the file path but cannot carry the file size. -/
theorem C1_counterexample :
    (call_vits_api "u" "t" "0" "zh" 30
        (ApiBehavior.respond 200 (List.replicate 100 0)) "aa" "/tmp").result
      = (call_vits_api "u" "t" "0" "zh" 30
        (ApiBehavior.respond 200 (List.replicate 200 0)) "aa" "/tmp").result
    ∧ (List.replicate 100 (0 : Nat)).length ≠ (List.replicate 200 (0 : Nat)).length :=
  ⟨by decide, by decide⟩

/-- C1 (amended): for every non-empty text within the length limit, when
the API responds 200 with a body of at least 100 bytes, both adapters
succeed and perform exactly one voice send whose path is the transient file
holding exactly the response bytes; the client persists the bytes under a
name unique per uuid suffix in the transient directory and returns the
path (the size is logged, not returned). -/
theorem C1_amended_thm (cfg : PluginConfig) (t v sfx tmp : String) (body : List Nat)
    (h1 : (pyStrip t) ≠ "") (h2 : (pyStrip t).length ≤ cfg.max_text_length)
    (hb : 100 ≤ body.length) :
    VitsTTSAction_execute cfg ⟨some t, some v⟩ (ApiBehavior.respond 200 body) sfx tmp none =
      { ok := true, msg := "成功生成并发送语音：" ++ pyTake (pyStrip t) 30 ++ "...",
        sent := [Sent.voice "send_custom" "voiceurl" (audioPath tmp sfx)],
        requests := [requestUrl cfg.api_url (pyStrip t)
          (if v = "" then cfg.default_voice_id else v) cfg.language],
        files := [(audioPath tmp sfx, body)] }
    ∧ VitsTTSCommand_execute cfg ⟨some t, some v⟩ (ApiBehavior.respond 200 body) sfx tmp none =
      { ok := true, msg := "成功生成并发送语音：" ++ pyTake (pyStrip t) 30 ++ "...",
        sent := [Sent.voice "send_type" "voiceurl" (audioPath tmp sfx)],
        requests := [requestUrl cfg.api_url (pyStrip t)
          (if v = "" then cfg.default_voice_id else v) cfg.language],
        files := [(audioPath tmp sfx, body)] }
    ∧ (call_vits_api cfg.api_url (pyStrip t) (if v = "" then cfg.default_voice_id else v)
        cfg.language cfg.timeout (ApiBehavior.respond 200 body) sfx tmp).result
        = some (audioPath tmp sfx)
    ∧ Function.Injective (audioPath tmp) := by
  have hs := call_success cfg.api_url (pyStrip t)
    (if v = "" then cfg.default_voice_id else v) cfg.language cfg.timeout body sfx tmp hb
  refine ⟨?_, ?_, ?_, audioPath_inj tmp⟩ <;>
    simp [VitsTTSAction_execute, VitsTTSCommand_execute, h1, Nat.not_lt.mpr h2, hs]

/-- C1 witness: the amended claim at text "hi", empty voice id and a
150-byte body. -/
theorem C1_witness :
    ((pyStrip "hi") ≠ "" ∧ (pyStrip "hi").length ≤ defaultConfig.max_text_length
      ∧ 100 ≤ (List.replicate 150 7).length)
    ∧ (VitsTTSAction_execute defaultConfig ⟨some "hi", some ""⟩
        (ApiBehavior.respond 200 (List.replicate 150 7)) "ab" "/tmp" none =
      { ok := true, msg := "成功生成并发送语音：" ++ pyTake (pyStrip "hi") 30 ++ "...",
        sent := [Sent.voice "send_custom" "voiceurl" (audioPath "/tmp" "ab")],
        requests := [requestUrl defaultConfig.api_url (pyStrip "hi")
          (if "" = "" then defaultConfig.default_voice_id else "") defaultConfig.language],
        files := [(audioPath "/tmp" "ab", List.replicate 150 7)] }
    ∧ VitsTTSCommand_execute defaultConfig ⟨some "hi", some ""⟩
        (ApiBehavior.respond 200 (List.replicate 150 7)) "ab" "/tmp" none =
      { ok := true, msg := "成功生成并发送语音：" ++ pyTake (pyStrip "hi") 30 ++ "...",
        sent := [Sent.voice "send_type" "voiceurl" (audioPath "/tmp" "ab")],
        requests := [requestUrl defaultConfig.api_url (pyStrip "hi")
          (if "" = "" then defaultConfig.default_voice_id else "") defaultConfig.language],
        files := [(audioPath "/tmp" "ab", List.replicate 150 7)] }
    ∧ (call_vits_api defaultConfig.api_url (pyStrip "hi")
        (if "" = "" then defaultConfig.default_voice_id else "")
        defaultConfig.language defaultConfig.timeout
        (ApiBehavior.respond 200 (List.replicate 150 7)) "ab" "/tmp").result
        = some (audioPath "/tmp" "ab")
    ∧ Function.Injective (audioPath "/tmp")) :=
  ⟨⟨by decide, by decide, by decide⟩,
    C1_amended_thm defaultConfig "hi" "" "ab" "/tmp" (List.replicate 150 7)
      (by decide) (by decide) (by decide)⟩

/-- C2 counterexample: with max_text_length 5 and the 6-character text
aaaaaa, the only user-facing send names the limit 5 but nowhere names the
actual length 6. -/
theorem C2_counterexample :
    (VitsTTSAction_execute { defaultConfig with max_text_length := 5 }
        ⟨some "aaaaaa", some ""⟩ (ApiBehavior.respond 200 []) "ab" "/tmp" none).sent
      = [Sent.text "❌ 文本长度超过限制（最大5字符）"]
    ∧ hasSeg "6".data "❌ 文本长度超过限制（最大5字符）".data = false :=
  ⟨by decide, by decide⟩

/-- C2 (amended): when the stripped text is longer than the configured
limit, each adapter fails fast with no request and no file; the user-facing
send names the configured limit, and the returned failure diagnostic names
both the actual length and the limit. -/
theorem C2_amended_thm (cfg : PluginConfig) (t v sfx tmp : String) (env : ApiBehavior)
    (h : (pyStrip t).length > cfg.max_text_length) :
    VitsTTSAction_execute cfg ⟨some t, some v⟩ env sfx tmp none =
      { ok := false,
        msg := "文本长度超过限制: " ++ toString (pyStrip t).length ++ "/"
          ++ toString cfg.max_text_length,
        sent := [Sent.text ("❌ 文本长度超过限制（最大"
          ++ toString cfg.max_text_length ++ "字符）")],
        requests := [], files := [] }
    ∧ VitsTTSCommand_execute cfg ⟨some t, some v⟩ env sfx tmp none =
      { ok := false,
        msg := "文本长度超过限制: " ++ toString (pyStrip t).length ++ "/"
          ++ toString cfg.max_text_length,
        sent := [Sent.text ("❌ 文本长度超过限制（最大"
          ++ toString cfg.max_text_length ++ "字符）")],
        requests := [], files := [] }
    ∧ hasSeg (toString cfg.max_text_length).data
        ("❌ 文本长度超过限制（最大" ++ toString cfg.max_text_length ++ "字符）").data = true
    ∧ hasSeg (toString (pyStrip t).length).data
        ("文本长度超过限制: " ++ toString (pyStrip t).length ++ "/"
          ++ toString cfg.max_text_length).data = true := by
  have hne : (pyStrip t) ≠ "" := by
    intro he
    rw [he] at h
    exact absurd h (by simp)
  refine ⟨?_, ?_, ?_, ?_⟩
  · simp [VitsTTSAction_execute, hne, h]
  · simp [VitsTTSCommand_execute, hne, h]
  · simp only [String.data_append, List.append_assoc]
    exact hasSeg_mid _ _ _
  · simp only [String.data_append, List.append_assoc]
    exact hasSeg_mid _ _ _

/-- C2 witness: the amended claim with the default limit 500 at a
501-character text. -/
theorem C2_witness :
    ((pyStrip (String.mk (List.replicate 501 'a'))).length > defaultConfig.max_text_length)
    ∧ (VitsTTSAction_execute defaultConfig ⟨some (String.mk (List.replicate 501 'a')), some ""⟩
        (ApiBehavior.respond 200 []) "ab" "/tmp" none).msg =
      "文本长度超过限制: " ++ toString (pyStrip (String.mk (List.replicate 501 'a'))).length
        ++ "/" ++ toString defaultConfig.max_text_length :=
  ⟨by decide,
    by
      have h := C2_amended_thm defaultConfig (String.mk (List.replicate 501 'a')) "" "ab" "/tmp"
        (ApiBehavior.respond 200 []) (by decide)
      rw [h.1]⟩

/-- C5 counterexample: at the claim's own example input /vits hello 3 a
greedy text capture (the spec's wording) would take "hello 3" with no voice
id, while the pattern's lazy capture extracts "hello" and "3"; the two
disagree. -/
theorem C5_counterexample :
    commandPatternMatch "/vits hello 3" = some ("hello", some "3")
    ∧ commandPatternMatchGreedySpec "/vits hello 3" = some ("hello 3", none)
    ∧ commandPatternMatch "/vits hello 3" ≠ commandPatternMatchGreedySpec "/vits hello 3" :=
  ⟨by decide, by decide, by decide⟩

/-- C5 (amended): /vits hello 3 parses to text "hello" and voice id "3",
and /vits hello world parses to text "hello world" with no voice id; the
text is the first capture matched lazily (minimal prefix letting the
optional trailing digit group close the match), and the voice id is an
optional trailing digit sequence. -/
theorem C5_amended_thm :
    commandPatternMatch "/vits hello 3" = some ("hello", some "3")
    ∧ commandPatternMatch "/vits hello world" = some ("hello world", none) :=
  ⟨by decide, by decide⟩

/-- C6: an unexpected exception inside either adapter's body is caught at
the outermost scope: a generic user-facing error message carrying the
exception text is sent and a failed outcome is returned, for every input
and configuration. -/
theorem C6_thm (cfg : PluginConfig) (d : ActionData) (mg : MatchedGroups)
    (env : ApiBehavior) (sfx tmp e : String) :
    (VitsTTSAction_execute cfg d env sfx tmp (some e)).ok = false
    ∧ (VitsTTSAction_execute cfg d env sfx tmp (some e)).msg = "语音合成出错: " ++ e
    ∧ Sent.text ("❌ 语音合成出错: " ++ e)
        ∈ (VitsTTSAction_execute cfg d env sfx tmp (some e)).sent
    ∧ (VitsTTSCommand_execute cfg mg env sfx tmp (some e)).ok = false
    ∧ (VitsTTSCommand_execute cfg mg env sfx tmp (some e)).msg = "语音合成出错: " ++ e
    ∧ Sent.text ("❌ 语音合成出错: " ++ e)
        ∈ (VitsTTSCommand_execute cfg mg env sfx tmp (some e)).sent := by
  refine ⟨rfl, rfl, ?_, rfl, rfl, ?_⟩ <;>
    simp [VitsTTSAction_execute, VitsTTSCommand_execute]

/-- C7: a text that is empty or whitespace-only after stripping makes each
adapter return the missing-text failure, notify the user, and issue no
request and write no file. -/
theorem C7_thm (cfg : PluginConfig) (t v : Option String) (env : ApiBehavior)
    (sfx tmp : String) (h : pyStrip (t.getD "") = "") :
    VitsTTSAction_execute cfg ⟨t, v⟩ env sfx tmp none =
      { ok := false, msg := "缺少文本内容",
        sent := [Sent.text "❌ 请提供要转换为语音的文本内容"], requests := [], files := [] }
    ∧ VitsTTSCommand_execute cfg ⟨t, v⟩ env sfx tmp none =
      { ok := false, msg := "缺少文本内容",
        sent := [Sent.text "❌ 请输入要转换为语音的文本内容"], requests := [], files := [] } := by
  constructor <;> simp [VitsTTSAction_execute, VitsTTSCommand_execute, h]

/-- C7 witness: a whitespace-only text at concrete inputs. -/
theorem C7_witness :
    (pyStrip ((some "   ").getD "") = "")
    ∧ (VitsTTSAction_execute defaultConfig ⟨some "   ", some ""⟩
        (ApiBehavior.respond 200 []) "ab" "/tmp" none =
      { ok := false, msg := "缺少文本内容",
        sent := [Sent.text "❌ 请提供要转换为语音的文本内容"], requests := [], files := [] }
    ∧ VitsTTSCommand_execute defaultConfig ⟨some "   ", some ""⟩
        (ApiBehavior.respond 200 []) "ab" "/tmp" none =
      { ok := false, msg := "缺少文本内容",
        sent := [Sent.text "❌ 请输入要转换为语音的文本内容"], requests := [], files := [] }) :=
  ⟨by decide,
    C7_thm defaultConfig (some "   ") (some "") (ApiBehavior.respond 200 []) "ab" "/tmp"
      (by decide)⟩

/-- C8: when voiceId is omitted (absent) or empty and the text is valid,
the single GET request either adapter issues carries the configured
default_voice_id exactly as its id parameter; the schema default is "0". -/
theorem C8_thm (cfg : PluginConfig) (t sfx tmp : String) (v : Option String)
    (env : ApiBehavior) (hv : v = none ∨ v = some "")
    (h1 : (pyStrip t) ≠ "") (h2 : (pyStrip t).length ≤ cfg.max_text_length) :
    (VitsTTSAction_execute cfg ⟨some t, v⟩ env sfx tmp none).requests
      = [requestUrl cfg.api_url (pyStrip t) cfg.default_voice_id cfg.language]
    ∧ (VitsTTSCommand_execute cfg ⟨some t, v⟩ env sfx tmp none).requests
      = [requestUrl cfg.api_url (pyStrip t) cfg.default_voice_id cfg.language]
    ∧ defaultConfig.default_voice_id = "0" := by
  have hv0 : v.getD "" = "" := by rcases hv with h | h <;> simp [h]
  have hr := call_requests cfg.api_url (pyStrip t) cfg.default_voice_id cfg.language
    cfg.timeout env sfx tmp
  refine ⟨?_, ?_, rfl⟩ <;>
  · simp only [VitsTTSAction_execute, VitsTTSCommand_execute, Option.getD_some]
    rw [hv0]
    simp only [if_neg h1, if_neg (Nat.not_lt.mpr h2), if_pos rfl]
    cases hres : (call_vits_api cfg.api_url (pyStrip t) cfg.default_voice_id cfg.language
        cfg.timeout env sfx tmp).result <;> simp [hres, hr]

/-- C9 counterexample: on an empty text the two adapters send different
user-visible messages (请提供 vs 请输入), so their user-visible behavior is
not identical even after ignoring which send primitive delivers voice. -/
theorem C9_counterexample :
    sentsNorm (VitsTTSAction_execute defaultConfig ⟨some "", some ""⟩
        (ApiBehavior.respond 200 []) "ab" "/tmp" none).sent
      ≠ sentsNorm (VitsTTSCommand_execute defaultConfig ⟨some "", some ""⟩
        (ApiBehavior.respond 200 []) "ab" "/tmp" none).sent :=
  by decide

/-- C9 (amended): on identical configuration and identical extracted
(text, voiceId) the two adapters return the same outcome flag and the same
diagnostic string, issue the same requests and write the same files; all
user-visible messages agree up to the delivering primitive, except that the
empty-text prompt is worded 请提供 by the action and 请输入 by the command. -/
theorem C9_amended_thm (cfg : PluginConfig) (t v : Option String) (env : ApiBehavior)
    (sfx tmp : String) (exc : Option String) :
    (VitsTTSAction_execute cfg ⟨t, v⟩ env sfx tmp exc).ok
        = (VitsTTSCommand_execute cfg ⟨t, v⟩ env sfx tmp exc).ok
    ∧ (VitsTTSAction_execute cfg ⟨t, v⟩ env sfx tmp exc).msg
        = (VitsTTSCommand_execute cfg ⟨t, v⟩ env sfx tmp exc).msg
    ∧ (VitsTTSAction_execute cfg ⟨t, v⟩ env sfx tmp exc).requests
        = (VitsTTSCommand_execute cfg ⟨t, v⟩ env sfx tmp exc).requests
    ∧ (VitsTTSAction_execute cfg ⟨t, v⟩ env sfx tmp exc).files
        = (VitsTTSCommand_execute cfg ⟨t, v⟩ env sfx tmp exc).files
    ∧ (pyStrip (t.getD "") ≠ "" ∨ exc ≠ none →
        sentsNorm (VitsTTSAction_execute cfg ⟨t, v⟩ env sfx tmp exc).sent
          = sentsNorm (VitsTTSCommand_execute cfg ⟨t, v⟩ env sfx tmp exc).sent) := by
  cases exc with
  | some e => exact ⟨rfl, rfl, rfl, rfl, fun _ => rfl⟩
  | none =>
      by_cases h1 : pyStrip (t.getD "") = ""
      · refine ⟨?_, ?_, ?_, ?_, ?_⟩ <;>
          simp [VitsTTSAction_execute, VitsTTSCommand_execute, h1]
      · by_cases h2 : (pyStrip (t.getD "")).length > cfg.max_text_length
        · refine ⟨?_, ?_, ?_, ?_, fun _ => ?_⟩ <;>
            simp [VitsTTSAction_execute, VitsTTSCommand_execute, h1, h2, sentsNorm]
        · cases hres : (call_vits_api cfg.api_url (pyStrip (t.getD ""))
              (if v.getD "" = "" then cfg.default_voice_id else v.getD "")
              cfg.language cfg.timeout env sfx tmp).result <;>
            refine ⟨?_, ?_, ?_, ?_, fun _ => ?_⟩ <;>
              simp [VitsTTSAction_execute, VitsTTSCommand_execute, h1, h2, hres, sentsNorm]

/-- C9 witness: the amended claim at a concrete valid input. -/
theorem C9_witness :
    (VitsTTSAction_execute defaultConfig ⟨some "hi", some "3"⟩
        (ApiBehavior.respond 200 (List.replicate 150 7)) "ab" "/tmp" none).ok
        = (VitsTTSCommand_execute defaultConfig ⟨some "hi", some "3"⟩
        (ApiBehavior.respond 200 (List.replicate 150 7)) "ab" "/tmp" none).ok
    ∧ (VitsTTSAction_execute defaultConfig ⟨some "hi", some "3"⟩
        (ApiBehavior.respond 200 (List.replicate 150 7)) "ab" "/tmp" none).msg
        = (VitsTTSCommand_execute defaultConfig ⟨some "hi", some "3"⟩
        (ApiBehavior.respond 200 (List.replicate 150 7)) "ab" "/tmp" none).msg
    ∧ (VitsTTSAction_execute defaultConfig ⟨some "hi", some "3"⟩
        (ApiBehavior.respond 200 (List.replicate 150 7)) "ab" "/tmp" none).requests
        = (VitsTTSCommand_execute defaultConfig ⟨some "hi", some "3"⟩
        (ApiBehavior.respond 200 (List.replicate 150 7)) "ab" "/tmp" none).requests
    ∧ (VitsTTSAction_execute defaultConfig ⟨some "hi", some "3"⟩
        (ApiBehavior.respond 200 (List.replicate 150 7)) "ab" "/tmp" none).files
        = (VitsTTSCommand_execute defaultConfig ⟨some "hi", some "3"⟩
        (ApiBehavior.respond 200 (List.replicate 150 7)) "ab" "/tmp" none).files
    ∧ (pyStrip ((some "hi").getD "") ≠ "" ∨ (none : Option String) ≠ none →
        sentsNorm (VitsTTSAction_execute defaultConfig ⟨some "hi", some "3"⟩
          (ApiBehavior.respond 200 (List.replicate 150 7)) "ab" "/tmp" none).sent
          = sentsNorm (VitsTTSCommand_execute defaultConfig ⟨some "hi", some "3"⟩
          (ApiBehavior.respond 200 (List.replicate 150 7)) "ab" "/tmp" none).sent) :=
  C9_amended_thm defaultConfig (some "hi") (some "3")
    (ApiBehavior.respond 200 (List.replicate 150 7)) "ab" "/tmp" none

/-- C10: retry_count and audio_format never influence behavior — both
adapters produce identical results under any change of the two settings,
the client issues exactly one GET request per invocation, and any file it
writes has a name ending in ".wav" whatever audio_format says. -/
theorem C10_thm (cfg : PluginConfig) (r : Nat) (a : String) (d : ActionData)
    (mg : MatchedGroups) (env : ApiBehavior) (sfx tmp : String) (exc : Option String)
    (u t v l : String) (tmo : Nat) :
    VitsTTSAction_execute { cfg with retry_count := r, audio_format := a } d env sfx tmp exc
      = VitsTTSAction_execute cfg d env sfx tmp exc
    ∧ VitsTTSCommand_execute { cfg with retry_count := r, audio_format := a } mg env sfx tmp exc
      = VitsTTSCommand_execute cfg mg env sfx tmp exc
    ∧ (call_vits_api u t v l tmo env sfx tmp).requests = [requestUrl u t v l]
    ∧ ((call_vits_api u t v l tmo env sfx tmp).files = []
        ∨ ∃ pre body, (call_vits_api u t v l tmo env sfx tmp).files
            = [(pre ++ ".wav", body)]) := by
  refine ⟨?_, ?_, call_requests u t v l tmo env sfx tmp, ?_⟩
  · cases cfg
    rfl
  · cases cfg
    rfl
  · cases env with
    | respond status body =>
        by_cases hs : status = 200
        · by_cases hb : body.length < 100
          · left
            simp [call_vits_api, hs, hb]
          · right
            refine ⟨tmp ++ "/vits_tts_" ++ sfx, body, ?_⟩
            have hd : ("/vits_tts_" : String).data
                = ("/" : String).data ++ ("vits_tts_" : String).data := rfl
            have hpath : audioPath tmp sfx = (tmp ++ "/vits_tts_" ++ sfx) ++ ".wav" := by
              apply String.ext
              simp only [audioPath, audioFilename, String.data_append, hd,
                List.append_assoc, List.singleton_append, List.cons_append,
                List.nil_append]
            simp [call_vits_api, hs, hb, hpath]
        · left
          simp [call_vits_api, hs]
    | timeout => exact Or.inl rfl
    | clientError m => exact Or.inl rfl
    | exception m => exact Or.inl rfl

/-- C8 witness: an absent voice id at concrete inputs. -/
theorem C8_witness :
    (((none : Option String) = none ∨ (none : Option String) = some "")
      ∧ (pyStrip "hi") ≠ "" ∧ (pyStrip "hi").length ≤ defaultConfig.max_text_length)
    ∧ ((VitsTTSAction_execute defaultConfig ⟨some "hi", none⟩
          (ApiBehavior.respond 200 (List.replicate 150 7)) "ab" "/tmp" none).requests
        = [requestUrl defaultConfig.api_url (pyStrip "hi")
            defaultConfig.default_voice_id defaultConfig.language]
      ∧ (VitsTTSCommand_execute defaultConfig ⟨some "hi", none⟩
          (ApiBehavior.respond 200 (List.replicate 150 7)) "ab" "/tmp" none).requests
        = [requestUrl defaultConfig.api_url (pyStrip "hi")
            defaultConfig.default_voice_id defaultConfig.language]
      ∧ defaultConfig.default_voice_id = "0") :=
  ⟨⟨Or.inl rfl, by decide, by decide⟩,
    C8_thm defaultConfig "hi" "ab" "/tmp" none
      (ApiBehavior.respond 200 (List.replicate 150 7))
      (Or.inl rfl) (by decide) (by decide)⟩
